import Mathlib

/-!
Shallow embedding of the magma orchestration layer (registry, model
identity, tool invocation and schema projection, prompt execution bridge)
together with theorems settling the frozen claims about it.

Python conventions are embedded as follows: machine-level Python values
are an inductive `PyVal`; raised exceptions become `Except PyError`;
insertion-ordered dictionaries become association lists
(`List (String × _)`); the process-wide registry singleton becomes an
explicit `Registry` value threaded through the registering constructors;
the class-level context slot `Prompt._agent_context` becomes an
`Option AgentContext` threaded through the node wrapper.
-/

/-- Embedded Python exception values, by exception class and message. -/
inductive PyError where
  | valueError (msg : String)
  | typeError (msg : String)
  | runtimeError (msg : String)
  | importError (msg : String)
deriving DecidableEq

/-- Embedded Python runtime values (the fragment the library manipulates:
strings, integers, booleans, None, and string-keyed dictionaries). -/
inductive PyVal where
  | str (s : String)
  | int (n : Int)
  | bool (b : Bool)
  | none
  | dict (entries : List (String × PyVal))

/-- Insertion-ordered dictionary update, mirroring Python `d[k] = v` on a
dict embedded as an association list: an existing key keeps its position
and gets the new value, a fresh key is appended at the end. -/
def setKey (l : List (String × PyVal)) (k : String) (v : PyVal) :
    List (String × PyVal) :=
  if l.any (fun p => p.1 == k) then
    l.map (fun p => if p.1 == k then (k, v) else p)
  else
    l ++ [(k, v)]

/-- Embedding of `magma.models.Model`: the LiteLLM identifier string and
the open parameter bag collected from keyword arguments. -/
structure Model where
  id : String
  params : List (String × PyVal)

/-- Embedding of the semantic parameter types appearing as the `type`
entry of a tool parameter's details dict (`str`, `int`, `float`, `bool`,
`list`, `dict`, or any other Python type object). -/
inductive PyType where
  | tstr
  | tint
  | tfloat
  | tbool
  | tlist
  | tdict
  | other (typeName : String)
deriving DecidableEq

/-- Embedding of one entry of a Tool's `params` mapping: the details dict
may or may not carry a `type` key and a `description` key (the source
reads both with `dict.get`). -/
structure ParamDetails where
  ptype : Option PyType
  pdescription : Option String

/-- Embedding of `magma.tools.Tool`: name, underlying callable,
description, and the insertion-ordered params mapping. The callable takes
embedded positional and keyword arguments and may raise. -/
structure Tool where
  name : String
  func : List PyVal → List (String × PyVal) → Except PyError PyVal
  description : String
  params : List (String × ParamDetails)

/-- Embedding of the routing-configuration client produced by
`ClientRegistry.add_llm_client` (name, provider, options). -/
structure BamlClient where
  name : String
  provider : String
  options : List (String × PyVal)

/-- Embedding of `baml_py.ClientRegistry` as the library observes it: the
clients added so far and the primary-client name set by `set_primary`. -/
structure ClientRegistry where
  clients : List BamlClient
  primary : Option String

/-- Embedding of `baml_client.type_builder.TypeBuilder` as the library
observes it: the schema strings accumulated by `add_baml`. -/
structure TypeBuilder where
  schemas : List String

/-- Fresh `TypeBuilder()` instance. -/
def TypeBuilder.empty : TypeBuilder := ⟨[]⟩

/-- Embedding of `TypeBuilder.add_baml`, which accumulates one schema
string into the builder. -/
def TypeBuilder.add_baml (tb : TypeBuilder) (schema : String) : TypeBuilder :=
  ⟨tb.schemas ++ [schema]⟩

/-- Embedding of the `baml_options` dict assembled by the prompt bridge:
the routing configuration under the `client_registry` key and the schema
builder under the `tb` key. -/
structure BamlOptions where
  client_registry : ClientRegistry
  tb : TypeBuilder

/-- Embedding of the callable wrapped by `magma.prompts.Prompt`: a
generated BAML function taking the original positional and keyword
arguments plus the assembled `baml_options`. -/
def BamlFn : Type :=
  List PyVal → List (String × PyVal) → BamlOptions → Except PyError PyVal

/-- Embedding of `magma.prompts.Prompt`: the wrapped BAML callable and
the optional name. -/
structure Prompt where
  baml_fn : BamlFn
  pname : Option String

/-- Embedding of `magma.registry.Registry`: three independent
insertion-ordered mappings, one per component kind. -/
structure Registry where
  models : List (String × Model)
  tools : List (String × Tool)
  prompts : List (String × Prompt)

/-- The freshly constructed registry (all three mappings empty). -/
def Registry.empty : Registry := ⟨[], [], []⟩

/-- Embedding of `Registry.add_model`: raises `ValueError` when the name
is already a key of the model mapping, otherwise stores the instance. -/
def Registry.add_model (r : Registry) (name : String) (m : Model) :
    Except PyError Registry :=
  if (r.models.lookup name).isSome then
    .error (.valueError ("Model " ++ name ++ " is already registered."))
  else
    .ok { r with models := r.models ++ [(name, m)] }

/-- Embedding of `Registry.add_tool`: raises `ValueError` when the name
is already a key of the tool mapping, otherwise stores the instance. -/
def Registry.add_tool (r : Registry) (name : String) (t : Tool) :
    Except PyError Registry :=
  if (r.tools.lookup name).isSome then
    .error (.valueError ("Tool " ++ name ++ " is already registered."))
  else
    .ok { r with tools := r.tools ++ [(name, t)] }

/-- Embedding of `Registry.add_prompt`: raises `ValueError` when the name
is already a key of the prompt mapping, otherwise stores the instance. -/
def Registry.add_prompt (r : Registry) (name : String) (p : Prompt) :
    Except PyError Registry :=
  if (r.prompts.lookup name).isSome then
    .error (.valueError ("Prompt " ++ name ++ " is already registered."))
  else
    .ok { r with prompts := r.prompts ++ [(name, p)] }

/-- Embedding of `Registry.clear`: empties all three mappings. -/
def Registry.clear (_r : Registry) : Registry := ⟨[], [], []⟩

/-- Embedding of Python `'/' in id` on the identifier string, computed
structurally over the string's characters. -/
def hasSlash (id : String) : Bool :=
  id.data.contains '/'

/-- Embedding of `Model.__init__`: validates that the identifier contains
the separator character (the source check is `'/' not in id`), then
constructs the instance and self-registers it under its identifier; a
registration failure propagates and no registration occurs. Returns the
constructed model together with the updated registry. -/
def Model.init (r : Registry) (id : String) (params : List (String × PyVal)) :
    Except PyError (Model × Registry) :=
  if ¬ (hasSlash id) then
    .error (.valueError "The id must be a string in provider/model_name format.")
  else
    let m : Model := { id := id, params := params }
    (Registry.add_model r id m).map (fun r2 => (m, r2))

/-- Embedding of `Tool.__init__`: stores the four fields and
self-registers into the registry's tool mapping under the tool name. -/
def Tool.init (r : Registry) (name : String)
    (func : List PyVal → List (String × PyVal) → Except PyError PyVal)
    (description : String) (params : List (String × ParamDetails)) :
    Except PyError (Tool × Registry) :=
  let t : Tool := { name := name, func := func, description := description,
                    params := params }
  (Registry.add_tool r name t).map (fun r2 => (t, r2))

/-- Embedding of Python `d.get(key, default)` on a string-to-string dict
embedded as an association list. -/
def dictGet (l : List (String × String)) (k : String) (default : String) :
    String :=
  match l with
  | [] => default
  | (a, v) :: rest => if k = a then v else dictGet rest k default

/-- Embedding of the module constant `Model._PROVIDER_MAP`: the fixed
translation table from LiteLLM provider tags to BAML provider names. -/
def PROVIDER_MAP : List (String × String) :=
  [("openai", "openai"),
   ("anthropic", "anthropic"),
   ("vertex_ai", "vertex-ai"),
   ("azure", "azure-openai"),
   ("google", "google-ai"),
   ("ollama", "openai-generic"),
   ("huggingface", "openai-generic")]

/-- Splits a character list at the first occurrence of the given
character: returns the characters before it and the characters after it,
or nothing when the character does not occur. -/
def splitAtFirst : List Char → Char → Option (List Char × List Char)
  | [], _ => Option.none
  | c :: cs, sep =>
      if c = sep then some ([], cs)
      else
        match splitAtFirst cs sep with
        | Option.none => Option.none
        | some (a, b) => some (c :: a, b)

/-- Embedding of Python `s.split(sep, 1)` specialised to the slash
separator as used on a model identifier: the part before the first slash
and everything after it (the source only reaches this on identifiers that
contain a slash; on a slash-free string the second component is empty). -/
def splitFirstSlash (s : String) : String × String :=
  match splitAtFirst s.data '/' with
  | Option.none => (s, "")
  | some (a, b) => (⟨a⟩, ⟨b⟩)

/-- Embedding of `Model.to_baml_client`: builds a fresh client registry,
splits the identifier at the first slash, resolves the provider through
`PROVIDER_MAP` with the raw tag as the default, copies the parameter bag
with the `model` key overwritten by the model-name half, adds the single
client named `magma-client` and marks it primary. -/
def Model.to_baml_client (m : Model) : ClientRegistry :=
  let pieces := splitFirstSlash m.id
  let providerTag := pieces.1
  let model_name := pieces.2
  let baml_provider := dictGet PROVIDER_MAP providerTag providerTag
  let baml_options := setKey m.params "model" (PyVal.str model_name)
  let client_name := "magma-client"
  { clients := [{ name := client_name, provider := baml_provider,
                  options := baml_options }],
    primary := some client_name }

/-- Embedding of the module constant `_TYPE_MAP` in `magma.tools`: the
fixed translation from Python parameter types to BAML schema types. -/
def TYPE_MAP : List (PyType × String) :=
  [(PyType.tstr, "string"),
   (PyType.tint, "int"),
   (PyType.tfloat, "float"),
   (PyType.tbool, "bool"),
   (PyType.tlist, "string[]"),
   (PyType.tdict, "map<string, string>")]

/-- Embedding of Python `description.split('\n')[0]`: the text before
the first newline. -/
def firstLine (s : String) : String :=
  ⟨s.data.takeWhile (fun c => ¬ (c = '\n'))⟩

/-- Embedding of Python `s.strip()` with no argument: remove leading and
trailing whitespace characters. -/
def pyStrip (s : String) : String :=
  ⟨((s.data.dropWhile Char.isWhitespace).reverse.dropWhile
      Char.isWhitespace).reverse⟩

/-- Replacement performed on one character by the quote-escaping pass: a
double quote becomes a backslash followed by a double quote. -/
def escChar (c : Char) : List Char :=
  if c = '\"' then ['\\', '\"'] else [c]

/-- Embedding of Python `s.replace('"', '\\"')`: escape every
double-quote character with a backslash. -/
def escapeQuotes (s : String) : String :=
  ⟨(s.data.map escChar).flatten⟩

/-- Embedding of `_TYPE_MAP.get(details.get("type"), "string")`: resolve
a parameter's declared type through the fixed table, falling back to
`string` when the `type` key is absent or the type is not in the table. -/
def bamlTypeOf (d : ParamDetails) : String :=
  match d.ptype with
  | some t => (TYPE_MAP.lookup t).getD "string"
  | none => "string"

/-- Embedding of one iteration of the schema loop body in
`Tool.to_baml_schema`: the line appended for one params entry. -/
def schemaFieldLine (p : String × ParamDetails) : String :=
  "  " ++ p.1 ++ " " ++ bamlTypeOf p.2 ++ " @description(\"" ++
    escapeQuotes (p.2.pdescription.getD "") ++ "\")\n"

/-- Embedding of `Tool.to_baml_schema`: the header line built from the
tool name and the escaped, stripped first line of the description, then
one field line appended per params entry by a left-to-right loop, then
the closing brace. -/
def Tool.to_baml_schema (t : Tool) : String :=
  let main_desc := escapeQuotes (pyStrip (firstLine t.description))
  let header := "class " ++ t.name ++ " @description(\"" ++ main_desc ++
    "\") \x7b\n"
  let body := t.params.foldl (fun acc p => acc ++ schemaFieldLine p) header
  body ++ "\x7d"

/-- Embedding of `Tool.invoke`: a call with exactly one positional
argument that is a dict and no keyword arguments unpacks the dict as
keyword arguments to the underlying callable; every other calling shape
forwards the arguments unchanged. The callable's outcome (value or
exception) is returned as is. -/
def Tool.invoke (t : Tool) (args : List PyVal)
    (kwargs : List (String × PyVal)) : Except PyError PyVal :=
  match args, kwargs with
  | [PyVal.dict d], [] => t.func [] d
  | _, _ => t.func args kwargs

/-- Embedding of one Python class object found by `inspect.getmembers`
inside a dynamically executed module: whether it is a proper subclass of
`Tool`, and the effect of instantiating it with the supplied keyword
arguments (instantiation of a Tool subclass runs `Tool.__init__`, so it
reads and updates the registry and may raise). -/
structure PyClass where
  isToolSubclass : Bool
  construct : Registry → Except PyError (Tool × Registry)

/-- Embedding of a Python source-code string at the boundary of `exec`:
the observable effect of executing it is the list of classes the
resulting module defines (other than `Tool` itself), in the order
`inspect.getmembers` reports them. -/
structure CodeString where
  classes : List PyClass

/-- Embedding of `Tool.from_code`: executes the code string (there is no
trust flag on this entry point in the source), finds the first defined
class that is a proper subclass of `Tool`, raises `ValueError` when none
exists, and otherwise instantiates that class. -/
def Tool.from_code (code : CodeString) (r : Registry) :
    Except PyError (Tool × Registry) :=
  match code.classes.find? (fun c => c.isToolSubclass) with
  | Option.none => .error (.valueError "No Tool subclass found in the provided code.")
  | some c => c.construct r

/-- Embedding of `Tool.from_hub`: fails when `trust_remote_code` is not
set, before any download; otherwise the downloaded file's contents (the
download itself is an external effect, embedded as the supplied
`CodeString`) are delegated to `Tool.from_code`. -/
def Tool.from_hub (trust_remote_code : Bool) (downloaded : CodeString)
    (r : Registry) : Except PyError (Tool × Registry) :=
  if ¬ trust_remote_code then
    .error (.valueError "Loading a tool from the Hub requires trust_remote_code=True.")
  else
    Tool.from_code downloaded r

/-- Embedding of `ToolCollection.from_hub`: fails when
`trust_remote_code` is not set; otherwise loads every space repository of
the collection (embedded as the list of downloaded code strings) through
`Tool.from_hub` with the flag set. -/
def ToolCollection.from_hub (trust_remote_code : Bool)
    (collectionCodes : List CodeString) (r : Registry) :
    Except PyError (List Tool × Registry) :=
  if ¬ trust_remote_code then
    .error (.valueError "Loading a collection from the Hub requires trust_remote_code=True.")
  else
    collectionCodes.foldlM
      (fun acc code => do
        let (t, r2) ← Tool.from_hub true code acc.2
        pure (acc.1 ++ [t], r2))
      (([] : List Tool), r)

/-- Embedding of the transient execution context published by the agent
node wrapper into `Prompt._agent_context`: the owning agent's model and
tool list. -/
structure AgentContext where
  model : Model
  tools : List Tool

/-- Embedding of the active `Prompt.__call__`: it raises `RuntimeError`
unconditionally — the body consists solely of the raise statement and
never reads the context slot, so the slot argument is ignored. -/
def Prompt.call (_p : Prompt) (_slot : Option AgentContext)
    (_args : List PyVal) (_kwargs : List (String × PyVal)) :
    Except PyError PyVal :=
  .error (.runtimeError
    "A magma.Prompt cannot be called directly. It must be invoked from within an active magma.Agent execution context, which provides the necessary model and tool configurations.")

/-- Embedding of `Prompt._execute_with_context`: builds the routing
configuration from the model, accumulates one schema per tool into a
fresh type builder, and calls the wrapped BAML function with the original
arguments plus the assembled `baml_options`. (The `isinstance` guard on
the model argument cannot fail in the typed embedding.) -/
def Prompt.execute_with_context (p : Prompt) (model : Model)
    (tools : List Tool) (args : List PyVal)
    (kwargs : List (String × PyVal)) : Except PyError PyVal :=
  let client_registry := model.to_baml_client
  let type_builder :=
    tools.foldl (fun tb t => tb.add_baml t.to_baml_schema) TypeBuilder.empty
  p.baml_fn args kwargs
    { client_registry := client_registry, tb := type_builder }

/-- Embedding of `magma.agent.Agent` restricted to the fields the
execution bridge reads: the default model and the tool list (the
constructor replaces a missing or empty tool argument with the empty
list, which `Option.getD` captures up to the coincidence on `[]`). -/
structure Agent where
  model : Model
  tools : List Tool

/-- Embedding of a node computation over the mutable context slot: given
the slot value at entry and the state argument, it produces an outcome
(a state update or a raised exception) together with the slot value at
exit — a node body may itself read or overwrite the slot (for example by
invoking another wrapped node). -/
def Node : Type :=
  Option AgentContext → PyVal → Except PyError PyVal × Option AgentContext

/-- Embedding of the closure returned by `Agent._get_node_wrapper`:
overwrites the context slot with the owning agent's model and tool list,
runs the wrapped node function on the state, and in all cases — normal
return or raised exception — finally overwrites the slot with the absent
value and propagates the node's outcome unchanged. -/
def Agent.context_wrapper (a : Agent) (node_func : Node) : Node :=
  fun _slotIn state =>
    let ctx : AgentContext := { model := a.model, tools := a.tools }
    let stepped := node_func (some ctx) state
    (stepped.1, Option.none)

/-- Written from the claim's words, for comparison with the source (not
an embedding of source code): the provider/model identifier shape —
exactly one separator splitting the identifier into a non-empty provider
tag and a non-empty model name. -/
def providerModelShape (id : String) : Bool :=
  (id.data.count '/' == 1) &&
    (match splitAtFirst id.data '/' with
     | some (a, b) => (¬ a.isEmpty) && (¬ b.isEmpty)
     | Option.none => false)

/-- Written from the claim's words, for comparison with the source: the
fixed seven-entry provider table as the claim describes it, with unknown
tags passing through unchanged. -/
def canonicalProviderSpec (tag : String) : String :=
  if tag = "openai" then "openai"
  else if tag = "anthropic" then "anthropic"
  else if tag = "vertex_ai" then "vertex-ai"
  else if tag = "azure" then "azure-openai"
  else if tag = "google" then "google-ai"
  else if tag = "ollama" then "openai-generic"
  else if tag = "huggingface" then "openai-generic"
  else tag

/-- Written from the claim's words, for comparison with the source: one
field declaration of the schema — the parameter name, its type resolved
through the fixed table with `string` as the fallback, and its
quote-escaped description annotation. -/
def specFieldDecl (p : String × ParamDetails) : String :=
  "  " ++ p.1 ++ " " ++ bamlTypeOf p.2 ++ " @description(\"" ++
    escapeQuotes (p.2.pdescription.getD "") ++ "\")\n"

/-- Concatenation of a list of strings, used by the claim-side schema
rendering. -/
def joinAll (l : List String) : String :=
  l.foldr (fun a b => a ++ b) ""

/-- Written from the claim's words, for comparison with the source: a
record declaration named after the tool, annotated with the stripped,
quote-escaped first line of the description, containing one field per
params entry in declared order. -/
def specSchema (t : Tool) : String :=
  "class " ++ t.name ++ " @description(\"" ++
    escapeQuotes (pyStrip (firstLine t.description)) ++ "\") \x7b\n" ++
    joinAll (t.params.map specFieldDecl) ++ "\x7d"

/-- The calling shape singled out by `Tool.invoke`: exactly one
positional argument that is a dict, and no keyword arguments. -/
def singleDictNoKwargs (args : List PyVal)
    (kwargs : List (String × PyVal)) : Bool :=
  match args, kwargs with
  | [PyVal.dict _], [] => true
  | _, _ => false

/-- Concrete model used to instantiate theorems with hypotheses. -/
def demoModel : Model := { id := "openai/gpt-4o", params := [] }

/-- Concrete tool used to instantiate theorems with hypotheses; its
callable echoes the keyword arguments it receives. -/
def demoTool : Tool :=
  { name := "sample_tool_func",
    func := fun args kwargs => .ok (PyVal.dict (("argc", PyVal.int args.length) :: kwargs)),
    description := "This is a sample tool.",
    params := [("arg1", ⟨some PyType.tstr, some "The first argument."⟩),
               ("arg2", ⟨some PyType.tint, some "The second argument."⟩)] }

/-- Concrete prompt whose wrapped callable succeeds with a fixed value,
used to exhibit the gap between the claimed context-bound execution and
the behaviour of the synchronous call. -/
def demoPrompt : Prompt :=
  { baml_fn := fun _ _ _ => .ok (PyVal.str "ok"), pname := some "demo" }

/-- Concrete execution context holding the demo model and no tools. -/
def demoCtx : AgentContext := { model := demoModel, tools := [] }

/-- Concrete registry holding one model, one tool and one prompt under
the same name, plus the demo model under its identifier; used to
instantiate the duplicate-registration theorem. -/
def demoRegistry : Registry :=
  { models := [("dup", demoModel), ("openai/gpt-4o", demoModel)],
    tools := [("dup", demoTool)],
    prompts := [("dup", demoPrompt)] }

/-- Concrete registry holding nothing but the demo model under its
identifier, the spec's own duplicate-Model scenario. -/
def soloModelRegistry : Registry :=
  { models := [("openai/gpt-4o", demoModel)], tools := [], prompts := [] }

/-- Concrete embedded class declaring a Tool subclass, mirroring the
repository's own `test_from_code` fixture. -/
def goodToolClass : PyClass :=
  { isToolSubclass := true,
    construct := fun r =>
      Tool.init r "my_test_tool" (fun _ _ => .ok (PyVal.int 6))
        "A test tool." [("x", ⟨some PyType.tint, Option.none⟩)] }

/-- Concrete embedded code string defining one Tool subclass. -/
def goodCode : CodeString := ⟨[goodToolClass]⟩

/-- Concrete embedded code string defining no Tool subclass at all. -/
def emptyCode : CodeString := ⟨[]⟩

/-- Concrete agent owning the demo model and the demo tool. -/
def demoAgent : Agent := { model := demoModel, tools := [demoTool] }

/-- Concrete node function that raises and leaves the slot as it found
it, used to instantiate the exception path of the wrapper theorems. -/
def failingNode : Node :=
  fun slot _ => (Except.error (PyError.runtimeError "boom"), slot)

/-!
Helper lemmas shared by the claim theorems.
-/

theorem str_append_empty (s : String) : s ++ "" = s := by
  apply String.ext
  show s.data ++ [] = s.data
  simp

theorem str_append_assoc (a b c : String) : a ++ b ++ c = a ++ (b ++ c) := by
  apply String.ext
  show a.data ++ b.data ++ c.data = a.data ++ (b.data ++ c.data)
  simp

theorem foldl_append_join {α : Type} (f : α → String) (l : List α) (h : String) :
    l.foldl (fun acc x => acc ++ f x) h = h ++ joinAll (l.map f) := by
  induction l generalizing h with
  | nil => exact (str_append_empty h).symm
  | cons x xs ih =>
      show xs.foldl _ (h ++ f x) = h ++ joinAll (f x :: xs.map f)
      rw [ih]
      show (h ++ f x) ++ joinAll (xs.map f) = h ++ (f x ++ joinAll (xs.map f))
      exact str_append_assoc h (f x) (joinAll (xs.map f))

theorem provider_dictGet_eq (tag : String) :
    dictGet PROVIDER_MAP tag tag = canonicalProviderSpec tag := rfl

/-- C1. The claim states that a Prompt invoked synchronously while the
execution context is set observes that context and executes bound to it,
assembling the routing configuration and the capability schemas and
calling the underlying callable with them. The code does not: the active
`Prompt.__call__` raises unconditionally and never reads the context
slot, so even in the Context-Set state the synchronous call fails; the
context-bound assembly exists only in `_execute_with_context`, which no
orchestrator path routes the call to. The first conjunct evaluates the
call at every context-set input, and the remaining conjuncts exhibit a
concrete prompt whose call does not produce the value that context-bound
execution would produce. -/
theorem c1_prompt_call_raises_even_with_context :
    (∀ (p : Prompt) (ctx : AgentContext) (args : List PyVal)
        (kwargs : List (String × PyVal)),
      Prompt.call p (some ctx) args kwargs = .error (.runtimeError
        "A magma.Prompt cannot be called directly. It must be invoked from within an active magma.Agent execution context, which provides the necessary model and tool configurations.")) ∧
    Prompt.call demoPrompt (some demoCtx) [] [] ≠ Except.ok (PyVal.str "ok") ∧
    Prompt.execute_with_context demoPrompt demoModel [] [] []
      = Except.ok (PyVal.str "ok") :=
  ⟨fun _ _ _ _ => rfl, fun h => Except.noConfusion h, rfl⟩

/-- C2. For every node function wrapped by the execution bridge and
every state argument, starting from an absent context slot: the wrapped
node observes exactly the owning agent's model and tool list for the
duration of its execution (the outcome equals the node's outcome at that
context), the slot is absent again after the wrapped call, and when the
node raises, the cleanup still runs (the slot is absent) and the
exception propagates unchanged. -/
theorem c2_wrapper_context_lifecycle (a : Agent) (node_func : Node)
    (state : PyVal) :
    (Agent.context_wrapper a node_func Option.none state).2 = Option.none ∧
    (Agent.context_wrapper a node_func Option.none state).1
      = (node_func (some { model := a.model, tools := a.tools }) state).1 ∧
    (∀ e, (node_func (some { model := a.model, tools := a.tools }) state).1
        = Except.error e →
      (Agent.context_wrapper a node_func Option.none state).1
        = Except.error e) :=
  ⟨rfl, rfl, fun _ h => h⟩

/-- Witness for C2 at a concrete agent, a concrete raising node and a
concrete state, discharging the error-propagation hypothesis. -/
theorem c2_wrapper_context_lifecycle_witness :
    (Agent.context_wrapper demoAgent failingNode Option.none
        (PyVal.int 1)).2 = Option.none ∧
    (Agent.context_wrapper demoAgent failingNode Option.none
        (PyVal.int 1)).1
      = Except.error (PyError.runtimeError "boom") :=
  ⟨(c2_wrapper_context_lifecycle demoAgent failingNode (PyVal.int 1)).1,
   (c2_wrapper_context_lifecycle demoAgent failingNode (PyVal.int 1)).2.2
     (PyError.runtimeError "boom") rfl⟩

/-- C3. Invoking a Prompt while no execution context is set fails with
the context-missing error (the `RuntimeError` demanding an active agent
execution context — the spec's ContextMissingError), and direct
invocation of a Prompt always fails regardless of the slot and of the
Prompt's own configuration. -/
theorem c3_prompt_direct_invocation_always_fails (p : Prompt)
    (args : List PyVal) (kwargs : List (String × PyVal)) :
    Prompt.call p Option.none args kwargs = .error (.runtimeError
      "A magma.Prompt cannot be called directly. It must be invoked from within an active magma.Agent execution context, which provides the necessary model and tool configurations.") ∧
    (∀ slot, Prompt.call p slot args kwargs = .error (.runtimeError
      "A magma.Prompt cannot be called directly. It must be invoked from within an active magma.Agent execution context, which provides the necessary model and tool configurations.")) :=
  ⟨rfl, fun _ => rfl⟩

/-- C4. For every registry kind, adding an instance under a name already
present in that kind's mapping — each kind's duplication condition scoped
to its own conjunct, independently of the other mappings — fails with the
duplicate-name error and produces no updated registry (in the pure
embedding the mapping is left exactly as it was, containing only the
first entry); in particular, constructing a second Model under an
already-registered identifier fails at the registration step and no
partially constructed object becomes observable as registered. -/
theorem c4_duplicate_registration_fails (r : Registry) (name id : String)
    (m2 : Model) (t2 : Tool) (p2 : Prompt)
    (params : List (String × PyVal)) :
    ((r.models.lookup name).isSome = true →
      Registry.add_model r name m2 = .error (.valueError
        ("Model " ++ name ++ " is already registered."))) ∧
    ((r.tools.lookup name).isSome = true →
      Registry.add_tool r name t2 = .error (.valueError
        ("Tool " ++ name ++ " is already registered."))) ∧
    ((r.prompts.lookup name).isSome = true →
      Registry.add_prompt r name p2 = .error (.valueError
        ("Prompt " ++ name ++ " is already registered."))) ∧
    ((r.models.lookup id).isSome = true → hasSlash id = true →
      Model.init r id params = .error (.valueError
        ("Model " ++ id ++ " is already registered."))) := by
  refine ⟨?_, ?_, ?_, ?_⟩
  · intro hm
    simp [Registry.add_model, hm]
  · intro ht
    simp [Registry.add_tool, ht]
  · intro hp
    simp [Registry.add_prompt, hp]
  · intro hid hslash
    simp [Model.init, hslash, Registry.add_model, hid, Except.map]

/-- Witness for C4: the three add conjuncts at a concrete registry
holding an entry of each kind under one name, and the Model-construction
conjunct at a registry holding nothing but the one model — the spec's
own duplicate-Model scenario — discharging every hypothesis. -/
theorem c4_duplicate_registration_fails_witness :
    Registry.add_model demoRegistry "dup" demoModel
      = .error (.valueError ("Model " ++ "dup" ++ " is already registered.")) ∧
    Registry.add_tool demoRegistry "dup" demoTool
      = .error (.valueError ("Tool " ++ "dup" ++ " is already registered.")) ∧
    Registry.add_prompt demoRegistry "dup" demoPrompt
      = .error (.valueError ("Prompt " ++ "dup" ++ " is already registered.")) ∧
    Model.init soloModelRegistry "openai/gpt-4o" []
      = .error (.valueError
          ("Model " ++ "openai/gpt-4o" ++ " is already registered.")) :=
  ⟨(c4_duplicate_registration_fails demoRegistry "dup" "openai/gpt-4o"
      demoModel demoTool demoPrompt []).1 rfl,
   (c4_duplicate_registration_fails demoRegistry "dup" "openai/gpt-4o"
      demoModel demoTool demoPrompt []).2.1 rfl,
   (c4_duplicate_registration_fails demoRegistry "dup" "openai/gpt-4o"
      demoModel demoTool demoPrompt []).2.2.1 rfl,
   (c4_duplicate_registration_fails soloModelRegistry "dup" "openai/gpt-4o"
      demoModel demoTool demoPrompt []).2.2.2 rfl rfl⟩

/-- Counterexample to C5 as stated: the identifier `a/b/c` does not
match the claimed provider/model shape (it has two separators), yet
Model construction succeeds on it — the source only checks that a slash
occurs somewhere in the identifier. -/
theorem c5_counterexample_two_separators_accepted :
    (Model.init Registry.empty "a/b/c" []).isOk = true ∧
    providerModelShape "a/b/c" = false :=
  ⟨rfl, rfl⟩

/-- C5 as amended: Model construction against a registry not already
containing the identifier succeeds exactly when the identifier contains
at least one separator character, and identifiers with no separator fail
with the validation error before any registration occurs (no registry
update is produced). -/
theorem c5_model_validation_accepts_any_slash (r : Registry) (id : String)
    (params : List (String × PyVal))
    (hfree : r.models.lookup id = Option.none) :
    ((Model.init r id params).isOk = true ↔ hasSlash id = true) ∧
    (hasSlash id = false →
      Model.init r id params = .error (.valueError
        "The id must be a string in provider/model_name format.")) := by
  cases h : hasSlash id <;>
    simp [Model.init, Registry.add_model, hfree, h, Except.map,
      Except.isOk, Except.toBool]

/-- Witness for C5's amended theorem at two concrete identifiers, one
with a separator and one without. -/
theorem c5_model_validation_accepts_any_slash_witness :
    ((Model.init Registry.empty "openai/gpt-4o" []).isOk = true
      ↔ hasSlash "openai/gpt-4o" = true) ∧
    Model.init Registry.empty "gpt4o" [] = .error (.valueError
      "The id must be a string in provider/model_name format.") :=
  ⟨(c5_model_validation_accepts_any_slash Registry.empty "openai/gpt-4o"
      [] rfl).1,
   (c5_model_validation_accepts_any_slash Registry.empty "gpt4o"
      [] rfl).2 rfl⟩

/-- Counterexample to C6 as stated: `Tool.from_code` has no opt-in trust
flag in the source and executes the code string unconditionally, so a
call with no flag set succeeds on a code string that defines a Tool
subclass instead of always failing. -/
theorem c6_counterexample_from_code_ungated_succeeds :
    (Tool.from_code goodCode Registry.empty).isOk = true := rfl

/-- C6 as amended: the remote entry points that can reach dynamic code
execution — hub download and collection download — fail when the opt-in
flag is unset, regardless of content; `Tool.from_code` itself takes no
flag, fails with the not-found error exactly when the executed code
defines no Tool subclass, and otherwise instantiates the first Tool
subclass found. -/
theorem c6_trust_gating_and_subclass_search (code : CodeString)
    (codes : List CodeString) (r : Registry) :
    Tool.from_hub false code r = .error (.valueError
      "Loading a tool from the Hub requires trust_remote_code=True.") ∧
    ToolCollection.from_hub false codes r = .error (.valueError
      "Loading a collection from the Hub requires trust_remote_code=True.") ∧
    (code.classes.find? (fun c => c.isToolSubclass) = Option.none →
      Tool.from_code code r = .error (.valueError
        "No Tool subclass found in the provided code.")) ∧
    (∀ c, code.classes.find? (fun c2 => c2.isToolSubclass) = some c →
      Tool.from_code code r = c.construct r) := by
  refine ⟨rfl, rfl, ?_, ?_⟩
  · intro h
    simp [Tool.from_code, h]
  · intro c h
    simp [Tool.from_code, h]

/-- Witness for C6's amended theorem at a code string with a Tool
subclass and at one with none, discharging both hypotheses. -/
theorem c6_trust_gating_and_subclass_search_witness :
    Tool.from_code goodCode Registry.empty
      = goodToolClass.construct Registry.empty ∧
    Tool.from_code emptyCode Registry.empty = .error (.valueError
      "No Tool subclass found in the provided code.") :=
  ⟨(c6_trust_gating_and_subclass_search goodCode [] Registry.empty).2.2.2
      goodToolClass rfl,
   (c6_trust_gating_and_subclass_search emptyCode [] Registry.empty).2.2.1
      rfl⟩

/-- C7. For every validly constructed Model, the routing-configuration
projection exposes exactly one client, named `magma-client` and marked
primary, whose provider is the canonical name from the fixed seven-entry
table (with unknown tags passing through unchanged, and in particular
`openai` mapping to `openai` and `ollama` to `openai-generic`) and whose
options equal the parameter bag with the `model` field overwritten by
the model-name half of the identifier. Determinism and absence of
mutation hold by construction: the projection is a pure function of the
identifier and the parameter bag. -/
theorem c7_routing_config_projection (id : String)
    (params : List (String × PyVal)) (_hvalid : hasSlash id = true) :
    (Model.mk id params).to_baml_client.primary = some "magma-client" ∧
    (Model.mk id params).to_baml_client.clients
      = [{ name := "magma-client",
           provider := canonicalProviderSpec (splitFirstSlash id).1,
           options := setKey params "model"
             (PyVal.str (splitFirstSlash id).2) }] ∧
    canonicalProviderSpec "openai" = "openai" ∧
    canonicalProviderSpec "ollama" = "openai-generic" ∧
    PROVIDER_MAP.length = 7 ∧
    (∀ tag, ¬ (tag ∈ PROVIDER_MAP.map Prod.fst) →
      canonicalProviderSpec tag = tag) := by
  refine ⟨rfl, ?_, rfl, rfl, rfl, ?_⟩
  · have e : (Model.mk id params).to_baml_client.clients
        = [{ name := "magma-client",
             provider := dictGet PROVIDER_MAP (splitFirstSlash id).1
               (splitFirstSlash id).1,
             options := setKey params "model"
               (PyVal.str (splitFirstSlash id).2) }] := rfl
    rw [e, provider_dictGet_eq]
  · intro tag htag
    simp [PROVIDER_MAP] at htag
    obtain ⟨h1, h2, h3, h4, h5, h6, h7⟩ := htag
    simp [canonicalProviderSpec, h1, h2, h3, h4, h5, h6, h7]

/-- Witness for C7 at the spec's own example identifier with a concrete
parameter bag, discharging the validity hypothesis; a second application
discharges the pass-through hypothesis at an unknown tag. -/
theorem c7_routing_config_projection_witness :
    ((Model.mk "openai/gpt-4o" [("api_key", PyVal.str "sk-x")]).to_baml_client.primary
        = some "magma-client") ∧
    (Model.mk "openai/gpt-4o"
        [("api_key", PyVal.str "sk-x")]).to_baml_client.clients
      = [{ name := "magma-client",
           provider := canonicalProviderSpec
             (splitFirstSlash "openai/gpt-4o").1,
           options := setKey [("api_key", PyVal.str "sk-x")] "model"
             (PyVal.str (splitFirstSlash "openai/gpt-4o").2) }] ∧
    canonicalProviderSpec "deepseek" = "deepseek" :=
  ⟨(c7_routing_config_projection "openai/gpt-4o"
      [("api_key", PyVal.str "sk-x")] rfl).1,
   (c7_routing_config_projection "openai/gpt-4o"
      [("api_key", PyVal.str "sk-x")] rfl).2.1,
   (c7_routing_config_projection "openai/gpt-4o"
      [("api_key", PyVal.str "sk-x")] rfl).2.2.2.2.2 "deepseek"
      (by decide)⟩

/-- C8. Invoking a Tool with a single positional mapping argument and no
keyword arguments produces the same call to the underlying callable —
and hence the same result or the same propagated failure — as invoking
it with the mapping's entries passed as keyword arguments; in every
other calling shape the positional and keyword arguments are forwarded
to the underlying callable unchanged. -/
theorem c8_invoke_mapping_unpacking (t : Tool) :
    (∀ m, Tool.invoke t [PyVal.dict m] [] = Tool.invoke t [] m) ∧
    (∀ m, Tool.invoke t [PyVal.dict m] [] = t.func [] m) ∧
    (∀ args kwargs, singleDictNoKwargs args kwargs = false →
      Tool.invoke t args kwargs = t.func args kwargs) := by
  refine ⟨fun m => rfl, fun m => rfl, ?_⟩
  intro args kwargs h
  cases args with
  | nil => rfl
  | cons a rest =>
      cases a <;> cases rest <;> cases kwargs <;>
        first
          | rfl
          | simp [singleDictNoKwargs] at h

/-- Witness for C8 at the spec's example mapping and at a concrete
non-mapping calling shape, discharging the shape hypothesis. -/
theorem c8_invoke_mapping_unpacking_witness :
    Tool.invoke demoTool
        [PyVal.dict [("arg1", PyVal.str "hello"), ("arg2", PyVal.int 5)]] []
      = Tool.invoke demoTool []
          [("arg1", PyVal.str "hello"), ("arg2", PyVal.int 5)] ∧
    Tool.invoke demoTool [PyVal.str "hello"] [("arg2", PyVal.int 5)]
      = demoTool.func [PyVal.str "hello"] [("arg2", PyVal.int 5)] :=
  ⟨(c8_invoke_mapping_unpacking demoTool).1
      [("arg1", PyVal.str "hello"), ("arg2", PyVal.int 5)],
   (c8_invoke_mapping_unpacking demoTool).2.2 [PyVal.str "hello"]
      [("arg2", PyVal.int 5)] rfl⟩

/-- C9. For every Tool, the schema projection emits exactly the record
declaration the claim describes: named after the tool, annotated with
the stripped, quote-escaped first line of the description, containing
one field per params entry in declared order, each field's type resolved
through the fixed type table with `string` as the fallback and each
field annotated with its quote-escaped description. Determinism holds by
construction: the projection is a pure function of the tool. -/
theorem c9_schema_projection_matches_spec (t : Tool) :
    t.to_baml_schema = specSchema t := by
  show (t.params.foldl (fun acc p => acc ++ schemaFieldLine p)
      ("class " ++ t.name ++ " @description(\"" ++
        escapeQuotes (pyStrip (firstLine t.description)) ++ "\") \x7b\n")) ++
      "\x7d" = specSchema t
  rw [foldl_append_join schemaFieldLine]
  rfl

/-- C10. For every wrapped node function and every prior value of the
context slot — including a non-absent one left by an enclosing
invocation — exiting the wrapper sets the slot to the absent value
rather than restoring the prior value (the slot is a single overwritable
cell), so a nested wrapped-node invocation run with the outer context as
the prior slot leaves the outer invocation with no context after the
inner one exits. -/
theorem c10_wrapper_clears_slot_unconditionally (a : Agent)
    (node_func : Node) (prior : Option AgentContext) (c : AgentContext)
    (state : PyVal) :
    (Agent.context_wrapper a node_func prior state).2 = Option.none ∧
    (Agent.context_wrapper a node_func (some c) state).2 ≠ some c :=
  ⟨rfl, fun h => Option.noConfusion h⟩
